import Mathlib

set_option maxRecDepth 100000

/-!
Verification development for a single-page website change monitor
(`website_monitor.py`).  The monitor fetches a page, extracts its body,
fingerprints it with MD5 over the UTF-8 encoding, compares the fingerprint
with a persisted one, and drives a Telegram notifier.  The embedding below
models the pure computations directly and the effectful `run_check` as a
function from an explicit environment (fetch outcome, state-file contents,
read/write-error flags, notifier outcome) to a final state-file value plus
an ordered trace of side effects.
-/

namespace WebsiteMonitor

/-! ## MD5 (as used by `hashlib.md5(...).hexdigest()`) -/

/-- Truncation to a 32-bit word. -/
def u32 (n : Nat) : Nat := n % 4294967296

/-- Left rotation of a 32-bit word `x` by `n` bits (for `x < 2^32`). -/
def rotl32 (x n : Nat) : Nat := u32 ((x <<< n) ||| (x >>> (32 - n)))

/-- Bitwise complement of a 32-bit word. -/
def notU32 (x : Nat) : Nat := 4294967295 - u32 x

/-- The 64 MD5 round constants `K[i] = floor(2^32 * abs(sin(i+1)))`. -/
def md5K : List Nat :=
  [0xd76aa478, 0xe8c7b756, 0x242070db, 0xc1bdceee,
   0xf57c0faf, 0x4787c62a, 0xa8304613, 0xfd469501,
   0x698098d8, 0x8b44f7af, 0xffff5bb1, 0x895cd7be,
   0x6b901122, 0xfd987193, 0xa679438e, 0x49b40821,
   0xf61e2562, 0xc040b340, 0x265e5a51, 0xe9b6c7aa,
   0xd62f105d, 0x02441453, 0xd8a1e681, 0xe7d3fbc8,
   0x21e1cde6, 0xc33707d6, 0xf4d50d87, 0x455a14ed,
   0xa9e3e905, 0xfcefa3f8, 0x676f02d9, 0x8d2a4c8a,
   0xfffa3942, 0x8771f681, 0x6d9d6122, 0xfde5380c,
   0xa4beea44, 0x4bdecfa9, 0xf6bb4b60, 0xbebfbc70,
   0x289b7ec6, 0xeaa127fa, 0xd4ef3085, 0x04881d05,
   0xd9d4d039, 0xe6db99e5, 0x1fa27cf8, 0xc4ac5665,
   0xf4292244, 0x432aff97, 0xab9423a7, 0xfc93a039,
   0x655b59c3, 0x8f0ccc92, 0xffeff47d, 0x85845dd1,
   0x6fa87e4f, 0xfe2ce6e0, 0xa3014314, 0x4e0811a1,
   0xf7537e82, 0xbd3af235, 0x2ad7d2bb, 0xeb86d391]

/-- The 64 MD5 per-round left-rotation amounts. -/
def md5S : List Nat :=
  [7, 12, 17, 22, 7, 12, 17, 22, 7, 12, 17, 22, 7, 12, 17, 22,
   5, 9, 14, 20, 5, 9, 14, 20, 5, 9, 14, 20, 5, 9, 14, 20,
   4, 11, 16, 23, 4, 11, 16, 23, 4, 11, 16, 23, 4, 11, 16, 23,
   6, 10, 15, 21, 6, 10, 15, 21, 6, 10, 15, 21, 6, 10, 15, 21]

/-- Little-endian 32-bit word `j` of a 64-byte chunk. -/
def wordAt (chunk : List Nat) (j : Nat) : Nat :=
  chunk.getD (4 * j) 0 + 256 * chunk.getD (4 * j + 1) 0 +
    65536 * chunk.getD (4 * j + 2) 0 + 16777216 * chunk.getD (4 * j + 3) 0

/-- A single MD5 round `i` acting on the state `(a, b, c, d)`. -/
def md5Step (w : Nat → Nat) (st : Nat × Nat × Nat × Nat) (i : Nat) :
    Nat × Nat × Nat × Nat :=
  let (a, b, c, d) := st
  let f :=
    if i < 16 then (b &&& c) ||| (notU32 b &&& d)
    else if i < 32 then (d &&& b) ||| (notU32 d &&& c)
    else if i < 48 then b ^^^ c ^^^ d
    else c ^^^ (b ||| notU32 d)
  let g :=
    if i < 16 then i
    else if i < 32 then (5 * i + 1) % 16
    else if i < 48 then (3 * i + 5) % 16
    else (7 * i) % 16
  let f2 := u32 (f + a + md5K.getD i 0 + w g)
  (d, u32 (b + rotl32 f2 (md5S.getD i 0)), b, c)

/-- Digest one 64-byte chunk into the running MD5 state. -/
def processChunk (st : Nat × Nat × Nat × Nat) (chunk : List Nat) :
    Nat × Nat × Nat × Nat :=
  let (a0, b0, c0, d0) := st
  let (a, b, c, d) := (List.range 64).foldl (md5Step (wordAt chunk)) st
  (u32 (a0 + a), u32 (b0 + b), u32 (c0 + c), u32 (d0 + d))

/-- The eight little-endian bytes of the 64-bit message bit length. -/
def lengthBytes (len : Nat) : List Nat :=
  let L := (len * 8) % 18446744073709551616
  [L % 256, L / 256 % 256, L / 65536 % 256, L / 16777216 % 256,
   L / 4294967296 % 256, L / 1099511627776 % 256,
   L / 281474976710656 % 256, L / 72057594037927936 % 256]

/-- MD5 padding: append `0x80`, zero bytes to 56 mod 64, then the length. -/
def padMessage (msg : List Nat) : List Nat :=
  let padLen := (119 - msg.length % 64) % 64
  msg ++ [128] ++ List.replicate padLen 0 ++ lengthBytes msg.length

/-- Split a byte list into 64-byte chunks (fuel-driven so it reduces). -/
def chunks64 : Nat → List Nat → List (List Nat)
  | 0, _ => []
  | _ + 1, [] => []
  | fuel + 1, x :: xs => (x :: xs.take 63) :: chunks64 fuel (xs.drop 63)

/-- The four little-endian bytes of a 32-bit word. -/
def wordLE (w : Nat) : List Nat := [w % 256, w / 256 % 256, w / 65536 % 256, w / 16777216 % 256]

/-- MD5 digest (16 bytes) of a byte sequence. -/
def md5Bytes (msg : List Nat) : List Nat :=
  let padded := padMessage msg
  let (a, b, c, d) :=
    (chunks64 padded.length padded).foldl processChunk
      (0x67452301, 0xefcdab89, 0x98badcfe, 0x10325476)
  wordLE a ++ wordLE b ++ wordLE c ++ wordLE d

/-- Lower-case hexadecimal digit for `n % 16`. -/
def hexDigit (n : Nat) : Char :=
  if n % 16 < 10 then Char.ofNat (48 + n % 16) else Char.ofNat (87 + n % 16)

/-- Two lower-case hex characters of a byte. -/
def byteToHex (b : Nat) : List Char := [hexDigit (b / 16), hexDigit b]

/-- Lower-case hex digest string of a byte sequence (as `hexdigest()`). -/
def md5hex (msg : List Nat) : String := String.mk ((md5Bytes msg).map byteToHex).flatten

/-! ## UTF-8 encoding (as `str.encode('utf-8')`) -/

/-- UTF-8 bytes of one character. -/
def utf8Bytes (c : Char) : List Nat :=
  let n := c.toNat
  if n < 128 then [n]
  else if n < 2048 then [192 + n / 64, 128 + n % 64]
  else if n < 65536 then [224 + n / 4096, 128 + n / 64 % 64, 128 + n % 64]
  else [240 + n / 262144, 128 + n / 4096 % 64, 128 + n / 64 % 64, 128 + n % 64]

/-- UTF-8 byte sequence of a string. -/
def encodeUtf8 (s : String) : List Nat := (s.data.map utf8Bytes).flatten

/-- Model of `WebsiteMonitor.calculate_hash`: MD5 hexdigest of the UTF-8 encoding. -/
def calculate_hash (content : String) : String := md5hex (encodeUtf8 content)

/-! ## Python `str.strip()` on read of the state file -/

/-- Python `str.strip()`: drop leading and trailing whitespace characters. -/
def pyStrip (s : String) : String :=
  String.mk (((s.data.dropWhile Char.isWhitespace).reverse.dropWhile Char.isWhitespace).reverse)

/-! ## Normalization (`extract_relevant_content`)

The HTML parsing library (`BeautifulSoup(...).find('body')` followed by
`str(...)`) is an external collaborator; it is abstracted as a function
`findBody : String → Option String` returning the rendered body region when
one is identifiable. -/

/-- Model of `WebsiteMonitor.extract_relevant_content`. -/
def extract_relevant_content (findBody : String → Option String) (html_content : String) :
    String :=
  if html_content = "" then ""
  else
    match findBody html_content with
    | some body => body
    | none => html_content

/-! ## The effectful layer

`run_check` performs one fetch, at most one state-file read, at most one
notification and at most one state-file write.  The environment fixes the
outcome of each external interaction for the run; the result records the
final state-file contents and the ordered trace of side effects. -/

/-- Outcome of the Selenium fetch: the rendered page source, or an
exception (whose message `e` is interpolated into the error report). -/
inductive FetchResult where
  | success (page_source : String)
  | failure (err : String)
deriving DecidableEq

/-- One run's environment: fetch outcome, current contents of
`state/last_hash.txt` (`none` when the file is absent), whether reading
resp. writing the file raises an exception, and whether the Telegram
transport delivers (`send_telegram_message` returns `True`). -/
structure Env where
  fetchResult : FetchResult
  fileContents : Option String
  readError : Bool
  writeError : Bool
  notifyOk : Bool
deriving DecidableEq

/-- An observable side effect of a run, in order of occurrence:
a `save_hash` call, or a `send_telegram_message` call with its outcome. -/
inductive Event where
  | saveAttempt (hash_value : String)
  | notify (message : String) (delivered : Bool)
deriving DecidableEq

/-- Recognizer for `Event.notify`. -/
def isNotify : Event → Bool
  | .notify _ _ => true
  | _ => false

/-- Number of notification attempts in a trace. -/
def countNotify (t : List Event) : Nat := (t.filter isNotify).length

/-- Final state-file contents plus the ordered side-effect trace. -/
structure RunResult where
  fileContents : Option String
  trace : List Event
deriving DecidableEq

/-- The error-class message sent when the fetch raises. -/
def errorMessage (url err : String) : String :=
  "🚨 <b>MONITOR ERROR</b>\n\nCould not fetch " ++
    (url ++ (" using Selenium.\nError: " ++ err))

/-- The first-run "monitoring started" message. -/
def startupMessage (url : String) : String :=
  "🎭 <b>Website Monitor (Selenium) Started</b>\n\nNow monitoring: " ++
    (url ++ "\nYou will be notified ONLY when the site\x27s body content changes.")

/-- The change-notification message. -/
def changeMessage (url : String) : String :=
  "🚨 <b>WEBSITE CHANGED!</b>\n\nThe ticket site has been updated:\n" ++
    (url ++ "\n\nCheck it now for new shows! 🎫")

/-- Model of `WebsiteMonitor.load_last_hash`: `None` when the file is absent, the
stripped contents when it reads, and `None` again when reading raises
(the `except` clause prints and falls through to `return None`). -/
def load_last_hash (fileContents : Option String) (readError : Bool) : Option String :=
  match fileContents with
  | some stored => if readError then none else some (pyStrip stored)
  | none => none

/-- Model of `WebsiteMonitor.save_hash`: overwrite the file, unless writing raises
(the exception is caught and only printed). -/
def save_hash (fileContents : Option String) (writeError : Bool) (hash_value : String) :
    Option String :=
  if writeError then fileContents else some hash_value

/-- Model of `WebsiteMonitor.get_page_content`: the page source on success; on an
exception, an error-class Telegram message is attempted and `None` is
returned. -/
def get_page_content (url : String) (env : Env) : Option String × List Event :=
  match env.fetchResult with
  | .success s => (some s, [])
  | .failure e => (none, [Event.notify (errorMessage url e) env.notifyOk])

/-- Model of `WebsiteMonitor.run_check`: fetch, bail out on missing/empty content,
fingerprint the extracted body, then branch on the loaded hash —
first run saves then announces; a change notifies and saves only on
delivery success; otherwise no side effects. -/
def run_check (url : String) (findBody : String → Option String) (env : Env) : RunResult :=
  match get_page_content url env with
  | (none, ev) => ⟨env.fileContents, ev⟩
  | (some content, ev) =>
    if content = "" then ⟨env.fileContents, ev⟩
    else
      let relevant_content := extract_relevant_content findBody content
      let current_hash := calculate_hash relevant_content
      match load_last_hash env.fileContents env.readError with
      | none =>
        ⟨save_hash env.fileContents env.writeError current_hash,
          ev ++ [Event.saveAttempt current_hash,
                 Event.notify (startupMessage url) env.notifyOk]⟩
      | some last_hash =>
        if current_hash ≠ last_hash then
          if env.notifyOk then
            ⟨save_hash env.fileContents env.writeError current_hash,
              ev ++ [Event.notify (changeMessage url) true,
                     Event.saveAttempt current_hash]⟩
          else
            ⟨env.fileContents, ev ++ [Event.notify (changeMessage url) false]⟩
        else
          ⟨env.fileContents, ev⟩

/-! ## Helper lemmas -/

theorem dropWhile_eq_self_of_not (p : Char → Bool) (l : List Char)
    (h : ∀ c ∈ l, p c = false) : l.dropWhile p = l := by
  cases l with
  | nil => rfl
  | cons a l => simp [List.dropWhile, h a (by simp)]

theorem pyStrip_eq_self_of (s : String) (h : ∀ c ∈ s.data, c.isWhitespace = false) :
    pyStrip s = s := by
  unfold pyStrip
  rw [dropWhile_eq_self_of_not _ _ h]
  rw [dropWhile_eq_self_of_not _ _ (by intro c hc; exact h c (by simpa using hc))]
  rw [List.reverse_reverse]

theorem hexDigit_not_ws (n : Nat) : (hexDigit n).isWhitespace = false := by
  have h : n % 16 < 16 := Nat.mod_lt _ (by omega)
  unfold hexDigit
  generalize hm : n % 16 = m at h ⊢
  interval_cases m <;> decide

theorem calculate_hash_chars (s : String) :
    ∀ c ∈ (calculate_hash s).data, c.isWhitespace = false := by
  intro c hc
  have h2 : c ∈ ((md5Bytes (encodeUtf8 s)).map byteToHex).flatten := hc
  rw [List.mem_flatten] at h2
  obtain ⟨l, hl, hcl⟩ := h2
  rw [List.mem_map] at hl
  obtain ⟨b, _, rfl⟩ := hl
  simp [byteToHex] at hcl
  rcases hcl with rfl | rfl <;> exact hexDigit_not_ws _

/-- Hex digests carry no surrounding whitespace, so the stripping read of
the state file returns them verbatim. -/
theorem pyStrip_calculate_hash (s : String) :
    pyStrip (calculate_hash s) = calculate_hash s :=
  pyStrip_eq_self_of _ (calculate_hash_chars s)

theorem take6_error (url e : String) :
    (errorMessage url e).data.take 6 = "🚨 <b>M".data := by
  unfold errorMessage
  rw [String.data_append]
  rw [List.take_append_of_le_length (by decide)]
  decide

theorem take6_change (u : String) :
    (changeMessage u).data.take 6 = "🚨 <b>W".data := by
  unfold changeMessage
  rw [String.data_append]
  rw [List.take_append_of_le_length (by decide)]
  decide

/-- The fetch-failure report is worded differently from every change
notification. -/
theorem error_ne_change (url e u : String) : errorMessage url e ≠ changeMessage u := by
  intro h
  have h6 := take6_change u
  rw [← h, take6_error] at h6
  exact absurd h6 (by decide)

theorem take1_startup (url : String) :
    (startupMessage url).data.take 1 = "🎭".data := by
  unfold startupMessage
  rw [String.data_append]
  rw [List.take_append_of_le_length (by decide)]
  decide

/-- The first-run announcement is worded differently from every change
notification. -/
theorem startup_ne_change (url u : String) : startupMessage url ≠ changeMessage u := by
  intro h
  have h1 : (changeMessage u).data.take 1 = "🚨".data := by
    unfold changeMessage
    rw [String.data_append]
    rw [List.take_append_of_le_length (by decide)]
    decide
  rw [← h, take1_startup] at h1
  exact absurd h1 (by decide)

end WebsiteMonitor
namespace WebsiteMonitor

/-- MD5 reference test vectors for the embedded digest. -/
theorem md5_test_vectors :
    calculate_hash "" = "d41d8cd98f00b204e9800998ecf8427e" ∧
    calculate_hash "abc" = "900150983cd24fb0d6963f7d28e17f72" ∧
    calculate_hash "The quick brown fox jumps over the lazy dog"
      = "9e107d9d372bb6826bd81d3542a419d6" :=
  ⟨by decide, by decide, by decide⟩

/-- C1: when a prior fingerprint is loaded and the current one differs,
a failed notification leaves the persisted state unchanged, and a
subsequent run with the same content re-attempts the change notification. -/
theorem change_notify_failure_no_commit (url : String)
    (findBody : String → Option String) (env : Env) (c fs : String)
    (hf : env.fetchResult = FetchResult.success c) (hc : c ≠ "")
    (hfile : env.fileContents = some fs) (hre : env.readError = false)
    (hne : calculate_hash (extract_relevant_content findBody c) ≠ pyStrip fs)
    (hn : env.notifyOk = false) :
    (run_check url findBody env).fileContents = env.fileContents ∧
    (run_check url findBody env).trace = [Event.notify (changeMessage url) false] ∧
    ∀ n2 w2 : Bool,
      (run_check url findBody
          ⟨FetchResult.success c, env.fileContents, false, w2, n2⟩).trace.head?
        = some (Event.notify (changeMessage url) n2) := by
  refine ⟨?_, ?_, ?_⟩
  · simp [run_check, get_page_content, load_last_hash, hf, hc, hfile, hre, hne, hn]
  · simp [run_check, get_page_content, load_last_hash, hf, hc, hfile, hre, hne, hn]
  · intro n2 w2
    cases n2 <;>
      simp [run_check, get_page_content, load_last_hash, save_hash, hfile, hc, hne]

/-- C1 witness. -/
theorem change_notify_failure_no_commit_witness :
    (run_check "u" (fun _ => none)
        ⟨FetchResult.success "x", some "00000000000000000000000000000000",
         false, false, false⟩).fileContents
      = some "00000000000000000000000000000000" ∧
    (run_check "u" (fun _ => none)
        ⟨FetchResult.success "x", some "00000000000000000000000000000000",
         false, false, false⟩).trace = [Event.notify (changeMessage "u") false] ∧
    ∀ n2 w2 : Bool,
      (run_check "u" (fun _ => none)
          ⟨FetchResult.success "x", some "00000000000000000000000000000000",
           false, w2, n2⟩).trace.head?
        = some (Event.notify (changeMessage "u") n2) :=
  change_notify_failure_no_commit "u" (fun _ => none) _ "x"
    "00000000000000000000000000000000" rfl (by decide) rfl rfl (by decide) rfl

/-- C2: with a differing current fingerprint and the notifier succeeding,
the run commits the new fingerprint and sends exactly one change
notification. -/
theorem change_notify_success_commits (url : String)
    (findBody : String → Option String) (env : Env) (c fs : String)
    (hf : env.fetchResult = FetchResult.success c) (hc : c ≠ "")
    (hfile : env.fileContents = some fs) (hre : env.readError = false)
    (hne : calculate_hash (extract_relevant_content findBody c) ≠ pyStrip fs)
    (hn : env.notifyOk = true) (hw : env.writeError = false) :
    (run_check url findBody env).fileContents
      = some (calculate_hash (extract_relevant_content findBody c)) ∧
    (run_check url findBody env).trace
      = [Event.notify (changeMessage url) true,
         Event.saveAttempt (calculate_hash (extract_relevant_content findBody c))] ∧
    countNotify (run_check url findBody env).trace = 1 := by
  refine ⟨?_, ?_, ?_⟩ <;>
    simp [run_check, get_page_content, load_last_hash, save_hash, hf, hc, hfile,
      hre, hne, hn, hw, countNotify, isNotify]

/-- C2 witness. -/
theorem change_notify_success_commits_witness :
    (run_check "u" (fun _ => none)
        ⟨FetchResult.success "x", some "00000000000000000000000000000000",
         false, false, true⟩).fileContents
      = some (calculate_hash (extract_relevant_content (fun _ => none) "x")) ∧
    (run_check "u" (fun _ => none)
        ⟨FetchResult.success "x", some "00000000000000000000000000000000",
         false, false, true⟩).trace
      = [Event.notify (changeMessage "u") true,
         Event.saveAttempt (calculate_hash (extract_relevant_content (fun _ => none) "x"))] ∧
    countNotify (run_check "u" (fun _ => none)
        ⟨FetchResult.success "x", some "00000000000000000000000000000000",
         false, false, true⟩).trace = 1 :=
  change_notify_success_commits "u" (fun _ => none) _ "x"
    "00000000000000000000000000000000" rfl (by decide) rfl rfl (by decide) rfl rfl

end WebsiteMonitor
namespace WebsiteMonitor

/-- C3 counterexample: on a first run (no persisted state) the code does
send a notification (the startup announcement), so "zero notifications"
fails at this concrete input. -/
theorem first_run_notifies_cex :
    countNotify (run_check "u" (fun _ => none)
        ⟨FetchResult.success "x", none, false, false, true⟩).trace ≠ 0 := by
  decide

/-- C3 (amended): a first run with successfully fetched content commits the
content's fingerprint and sends exactly one notification — the startup
announcement, worded differently from a change message (announced-baseline
policy, not silent-baseline). -/
theorem first_run_announced_baseline (url : String)
    (findBody : String → Option String) (env : Env) (c : String)
    (hf : env.fetchResult = FetchResult.success c) (hc : c ≠ "")
    (hload : load_last_hash env.fileContents env.readError = none)
    (hw : env.writeError = false) :
    (run_check url findBody env).fileContents
      = some (calculate_hash (extract_relevant_content findBody c)) ∧
    (run_check url findBody env).trace
      = [Event.saveAttempt (calculate_hash (extract_relevant_content findBody c)),
         Event.notify (startupMessage url) env.notifyOk] ∧
    countNotify (run_check url findBody env).trace = 1 ∧
    ∀ u, startupMessage url ≠ changeMessage u := by
  refine ⟨?_, ?_, ?_, fun u => startup_ne_change url u⟩ <;>
    simp [run_check, get_page_content, save_hash, hf, hc, hload, hw,
      countNotify, isNotify]

/-- C3 witness for the amended claim. -/
theorem first_run_announced_baseline_witness :
    (run_check "u" (fun _ => none)
        ⟨FetchResult.success "x", none, false, false, true⟩).fileContents
      = some (calculate_hash (extract_relevant_content (fun _ => none) "x")) ∧
    (run_check "u" (fun _ => none)
        ⟨FetchResult.success "x", none, false, false, true⟩).trace
      = [Event.saveAttempt (calculate_hash (extract_relevant_content (fun _ => none) "x")),
         Event.notify (startupMessage "u") true] ∧
    countNotify (run_check "u" (fun _ => none)
        ⟨FetchResult.success "x", none, false, false, true⟩).trace = 1 ∧
    ∀ u, startupMessage "u" ≠ changeMessage u :=
  first_run_announced_baseline "u" (fun _ => none) _ "x" rfl (by decide) rfl rfl

/-- C4: when the loaded fingerprint equals the current one, the run has no
side effects at all: no notification and no write, state unchanged. -/
theorem unchanged_no_side_effects (url : String)
    (findBody : String → Option String) (env : Env) (c fs : String)
    (hf : env.fetchResult = FetchResult.success c) (hc : c ≠ "")
    (hfile : env.fileContents = some fs) (hre : env.readError = false)
    (heq : calculate_hash (extract_relevant_content findBody c) = pyStrip fs) :
    run_check url findBody env = ⟨env.fileContents, []⟩ := by
  simp [run_check, get_page_content, load_last_hash, hf, hc, hfile, hre, heq]

/-- C4 witness. -/
theorem unchanged_no_side_effects_witness :
    run_check "u" (fun _ => none)
        ⟨FetchResult.success "x", some (calculate_hash "x"), false, false, true⟩
      = ⟨some (calculate_hash "x"), []⟩ :=
  unchanged_no_side_effects "u" (fun _ => none) _ "x" (calculate_hash "x")
    rfl (by decide) rfl rfl (by decide)

/-- C5: a fetch error aborts the run before any state comparison: the
persisted state is untouched and the only side effect is one error-class
message, worded differently from every change message. -/
theorem fetch_error_isolation (url : String)
    (findBody : String → Option String) (env : Env) (e : String)
    (hf : env.fetchResult = FetchResult.failure e) :
    (run_check url findBody env).fileContents = env.fileContents ∧
    (run_check url findBody env).trace
      = [Event.notify (errorMessage url e) env.notifyOk] ∧
    ∀ u, errorMessage url e ≠ changeMessage u := by
  refine ⟨?_, ?_, fun u => error_ne_change url e u⟩ <;>
    simp [run_check, get_page_content, hf]

/-- C5 witness. -/
theorem fetch_error_isolation_witness :
    (run_check "u" (fun _ => none)
        ⟨FetchResult.failure "boom", some "h0", false, false, true⟩).fileContents
      = some "h0" ∧
    (run_check "u" (fun _ => none)
        ⟨FetchResult.failure "boom", some "h0", false, false, true⟩).trace
      = [Event.notify (errorMessage "u" "boom") true] ∧
    ∀ u, errorMessage "u" "boom" ≠ changeMessage u :=
  fetch_error_isolation "u" (fun _ => none) _ "boom" rfl

/-- C6 counterexample: with the state file present but reading it failing
(`readError = true`), the run does not abort — it re-baselines: the
persisted state is overwritten and the startup notification is sent. -/
theorem read_error_rebaseline_cex :
    (run_check "u" (fun _ => none)
        ⟨FetchResult.success "x", some "deadbeef", true, false, true⟩).fileContents
      ≠ some "deadbeef" ∧
    (run_check "u" (fun _ => none)
        ⟨FetchResult.success "x", some "deadbeef", true, false, true⟩).trace
      = [Event.saveAttempt (calculate_hash "x"),
         Event.notify (startupMessage "u") true] := by
  refine ⟨by decide, by decide⟩

/-- C6 (amended): a genuine I/O failure while reading the persisted state
is caught and treated exactly like an absent state (`NO_BASELINE`): the run
proceeds, attempts to commit the current fingerprint and sends the startup
notification — it never aborts. -/
theorem read_error_treated_as_no_baseline (url : String)
    (findBody : String → Option String) (env : Env) (c : String)
    (hf : env.fetchResult = FetchResult.success c) (hc : c ≠ "")
    (hre : env.readError = true) :
    (run_check url findBody env).fileContents
      = save_hash env.fileContents env.writeError
          (calculate_hash (extract_relevant_content findBody c)) ∧
    (run_check url findBody env).trace
      = [Event.saveAttempt (calculate_hash (extract_relevant_content findBody c)),
         Event.notify (startupMessage url) env.notifyOk] := by
  cases hfc : env.fileContents <;>
    refine ⟨?_, ?_⟩ <;>
      simp [run_check, get_page_content, load_last_hash, hf, hc, hre, hfc]

/-- C6 witness for the amended claim. -/
theorem read_error_treated_as_no_baseline_witness :
    (run_check "u" (fun _ => none)
        ⟨FetchResult.success "x", some "deadbeef", true, false, true⟩).fileContents
      = save_hash (some "deadbeef") false
          (calculate_hash (extract_relevant_content (fun _ => none) "x")) ∧
    (run_check "u" (fun _ => none)
        ⟨FetchResult.success "x", some "deadbeef", true, false, true⟩).trace
      = [Event.saveAttempt (calculate_hash (extract_relevant_content (fun _ => none) "x")),
         Event.notify (startupMessage "u") true] :=
  read_error_treated_as_no_baseline "u" (fun _ => none) _ "x" rfl (by decide) rfl

end WebsiteMonitor
namespace WebsiteMonitor

/-- C7: the fingerprint is a pure function of the UTF-8 byte encoding of
its input: byte-identical inputs always yield identical fingerprints. -/
theorem hash_depends_only_on_bytes (s1 s2 : String)
    (h : encodeUtf8 s1 = encodeUtf8 s2) :
    calculate_hash s1 = calculate_hash s2 := by
  unfold calculate_hash
  rw [h]

/-- C7 witness. -/
theorem hash_depends_only_on_bytes_witness :
    calculate_hash "<body>show</body>" = calculate_hash "<body>show</body>" :=
  hash_depends_only_on_bytes "<body>show</body>" "<body>show</body>" rfl

/-- C8: for a non-empty snapshot, normalization returns the body region
when the parser identifies one and the whole snapshot unmodified when it
does not; it always produces a value. -/
theorem extract_relevant_content_policy (findBody : String → Option String)
    (html : String) (hne : html ≠ "") :
    (∀ b, findBody html = some b → extract_relevant_content findBody html = b) ∧
    (findBody html = none → extract_relevant_content findBody html = html) := by
  refine ⟨fun b hb => ?_, fun hb => ?_⟩ <;> simp [extract_relevant_content, hne, hb]

/-- C8 witness. -/
theorem extract_relevant_content_policy_witness :
    (∀ b, (fun (_ : String) => some "<body>x</body>") "<html>y</html>" = some b →
      extract_relevant_content (fun _ => some "<body>x</body>") "<html>y</html>" = b) ∧
    ((fun (_ : String) => some "<body>x</body>") "<html>y</html>" = none →
      extract_relevant_content (fun _ => some "<body>x</body>") "<html>y</html>"
        = "<html>y</html>") :=
  extract_relevant_content_policy (fun _ => some "<body>x</body>") "<html>y</html>"
    (by decide)

/-- C9: saving a fingerprint that carries no surrounding whitespace and
then loading returns exactly the saved value. -/
theorem state_roundtrip (fc : Option String) (v : String) (h : pyStrip v = v) :
    load_last_hash (save_hash fc false v) false = some v := by
  simp [save_hash, load_last_hash, h]

/-- C9 witness, at a produced hex digest. -/
theorem state_roundtrip_witness :
    load_last_hash (save_hash none false "900150983cd24fb0d6963f7d28e17f72") false
      = some "900150983cd24fb0d6963f7d28e17f72" :=
  state_roundtrip none "900150983cd24fb0d6963f7d28e17f72" (by decide)

/-- C10: in the no-baseline branch the fingerprint is committed before the
startup notification and regardless of its outcome, so the next run with
identical content produces no side effects at all. -/
theorem baseline_commit_unconditional (url : String)
    (findBody : String → Option String) (env : Env) (c : String)
    (hf : env.fetchResult = FetchResult.success c) (hc : c ≠ "")
    (hload : load_last_hash env.fileContents env.readError = none)
    (hw : env.writeError = false) :
    (run_check url findBody env).fileContents
      = some (calculate_hash (extract_relevant_content findBody c)) ∧
    (run_check url findBody env).trace
      = [Event.saveAttempt (calculate_hash (extract_relevant_content findBody c)),
         Event.notify (startupMessage url) env.notifyOk] ∧
    ∀ w2 n2 : Bool,
      (run_check url findBody
          ⟨FetchResult.success c,
           some (calculate_hash (extract_relevant_content findBody c)),
           false, w2, n2⟩).trace = [] := by
  refine ⟨?_, ?_, ?_⟩
  · simp [run_check, get_page_content, save_hash, hf, hc, hload, hw]
  · simp [run_check, get_page_content, hf, hc, hload]
  · intro w2 n2
    simp [run_check, get_page_content, load_last_hash, hc, pyStrip_calculate_hash]

/-- C10 witness. -/
theorem baseline_commit_unconditional_witness :
    (run_check "u" (fun _ => none)
        ⟨FetchResult.success "x", none, false, false, false⟩).fileContents
      = some (calculate_hash (extract_relevant_content (fun _ => none) "x")) ∧
    (run_check "u" (fun _ => none)
        ⟨FetchResult.success "x", none, false, false, false⟩).trace
      = [Event.saveAttempt (calculate_hash (extract_relevant_content (fun _ => none) "x")),
         Event.notify (startupMessage "u") false] ∧
    ∀ w2 n2 : Bool,
      (run_check "u" (fun _ => none)
          ⟨FetchResult.success "x",
           some (calculate_hash (extract_relevant_content (fun _ => none) "x")),
           false, w2, n2⟩).trace = [] :=
  baseline_commit_unconditional "u" (fun _ => none) _ "x" rfl (by decide) rfl rfl

end WebsiteMonitor
